import Mathlib

/-!
Verification development for the notepad-automation-bot repository.

The repository contains two generations of the same automation flow:
the standalone script `main.py`, and the package under `src/` consisting of
`icon_detector.py` (template matching, coordinate cache) and `notepad.py`
(window management, launch controller, content writer).

This file gives a shallow embedding of the data model and the operations,
translated function by function from the Python source:

* `find_icon_with_multiple_templates` models the multi-template matcher of
  `main.py` (lines 39-95).  The external call `cv2.matchTemplate` is
  abstracted by recording, per template, the maximum correlation value
  (`conf`) and its location (`loc`) that the call would return; the scanning
  loop, the oversized-template skip, the running best-match state and the
  final threshold test are translated literally.  The branch of the Python
  code that would subscript `None` (only reachable when the threshold is
  not positive and no template was eligible) is modelled by
  `Except.error ()`.
* `find_icon`, `set_cache`, `invalidate_cache` model `src/icon_detector.py`.
  The botcity backend is abstracted by a `Bot` structure carrying, per
  template label, the match confidence that `bot.find` compares against its
  `matching` threshold and the coordinates `bot.get_element_coords` returns.
  The threshold constant `MATCHING_THRESHOLD` lives in the missing
  `config.py`, so it is a parameter `T`; the lowered threshold `T - 1/10`
  comes from `icon_detector.py` itself.
* `get_notepad_windows_main` / `get_notepad_windows_pkg` model the window
  filters of `main.py` (lines 114-129) and `src/notepad.py` (lines 64-73).
  `pygetwindow.getWindowsWithTitle` compares case-insensitively by
  substring, modelled by `getWindowsWithTitle`.
* `launch_notepad` models `src/notepad.py` lines 100-132.  Wall-clock
  polling inside `_verify_notepad_launched` is abstracted into a boolean
  verification outcome per attempt (`vout`).
* `write_post_to_notepad` models `src/notepad.py` lines 189-216 together
  with `_save_file` and `_paste_content`; the keyboard/clipboard calls are
  recorded as a `UIAction` trace, and the poll loop of `_wait_for_dialog`
  is abstracted into a sequence of dialog-presence observations.
* `mainDriver` models the post-processing loop of `main.py` lines 356-373.
-/

namespace NotepadBot

/-! ## Data model: templates, match state (main.py lines 39-95) -/

/-- A loaded template together with the outcome the abstracted
`cv2.matchTemplate` call would produce for it on the fixed screen capture:
`rows`/`cols` are the grayscale image dimensions (`shape[0]`/`shape[1]`),
`conf` is `max_val` and `loc` is `max_loc` from `cv2.minMaxLoc`. -/
structure Template where
  name : String
  rows : ℕ
  cols : ℕ
  conf : ℚ
  loc : ℕ × ℕ
deriving DecidableEq

/-- The running best-match state of the loop in
`find_icon_with_multiple_templates`:
`best_match_score`, `best_match_loc`, `best_match_dims` (stored as
`(w, h)` = `(cols, rows)`, as in the Python code) and
`best_template_name`.  `loc = none` models the initial Python value
`best_match_loc = None`. -/
structure MatchState where
  score : ℚ
  loc : Option (ℕ × ℕ)
  dims : ℕ × ℕ
  name : String
deriving DecidableEq

/-- Initial state: `best_match_score = 0.0`, `best_match_loc = None`. -/
def initMatch : MatchState := ⟨0, none, (0, 0), ""⟩

/-- A template is eligible when it does not exceed the capture in either
axis (negation of the skip condition at `main.py` line 70). -/
def eligible (H W : ℕ) (t : Template) : Prop := t.rows ≤ H ∧ t.cols ≤ W

instance (H W : ℕ) (t : Template) : Decidable (eligible H W t) :=
  inferInstanceAs (Decidable (_ ∧ _))

/-- One iteration of the template loop (`main.py` lines 57-85): skip the
template if it is larger than the screen, otherwise update the best-match
state when `max_val` strictly improves on `best_match_score`. -/
def matchStep (H W : ℕ) (s : MatchState) (t : Template) : MatchState :=
  if H < t.rows ∨ W < t.cols then s
  else if s.score < t.conf then ⟨t.conf, some t.loc, (t.cols, t.rows), t.name⟩
  else s

/-- The whole template loop over the screen capture of dimensions
`H × W` (rows by columns). -/
def scanTemplates (ts : List Template) (H W : ℕ) : MatchState :=
  ts.foldl (matchStep H W) initMatch

/-- `find_icon_with_multiple_templates` (`main.py` lines 39-95): after the
loop, accept only if `best_match_score >= MATCH_THRESHOLD` (the parameter
`T`), returning the center `(loc_x + w // 2, loc_y + h // 2)`; otherwise
return `None`.  If the threshold test passed with `best_match_loc = None`
the Python code would raise a `TypeError`; that branch is `Except.error`. -/
def find_icon_with_multiple_templates (ts : List Template) (H W : ℕ) (T : ℚ) :
    Except Unit (Option (ℕ × ℕ)) :=
  let s := scanTemplates ts H W
  if T ≤ s.score then
    match s.loc with
    | some l => Except.ok (some (l.1 + s.dims.1 / 2, l.2 + s.dims.2 / 2))
    | none => Except.error ()
  else Except.ok none

/-- Spec-side quantity: the best confidence across all evaluated (that is,
not oversized) templates, starting from the initial score `0.0`. -/
def bestConf (ts : List Template) (H W : ℕ) : ℚ :=
  ts.foldl (fun acc t => if eligible H W t then max acc t.conf else acc) 0

/-! ## Coordinate cache (src/icon_detector.py lines 8-33) -/

/-- The single global slot `icon_cache`, threaded explicitly. -/
abbrev IconCache := Option (ℤ × ℤ)

/-- `set_cache` (`icon_detector.py` lines 24-27). -/
def set_cache (c : ℤ × ℤ) (_cache : IconCache) : IconCache := some c

/-- `invalidate_cache` (`icon_detector.py` lines 30-33). -/
def invalidate_cache (_cache : IconCache) : IconCache := none

/-- Reading the global `icon_cache`. -/
def get_cache (cache : IconCache) : IconCache := cache

/-! ## Icon finder of the package (src/icon_detector.py lines 36-71) -/

/-- Abstraction of the botcity backend: per template label, the match
confidence that `bot.find(label, matching=threshold, ...)` compares
against its threshold, and the coordinates `bot.get_element_coords`
returns (`none` when it fails). -/
structure Bot where
  conf : String → ℚ
  coords : String → Option (ℤ × ℤ)

/-- One pass of the inner loop of `find_icon` at a fixed threshold: return
the coordinates of the first label whose confidence reaches the threshold
and whose coordinate lookup succeeds. -/
def findPass (bot : Bot) (thr : ℚ) : List String → Option (ℤ × ℤ)
  | [] => none
  | l :: ls =>
    if thr ≤ bot.conf l then
      match bot.coords l with
      | some c => some c
      | none => findPass bot thr ls
    else findPass bot thr ls

/-- `find_icon` (`icon_detector.py` lines 36-71): if `use_cache` and the
cache is set, return it directly; otherwise run two passes over the
labels, first at the primary threshold `T` (`MATCHING_THRESHOLD`, a
constant of the missing `config.py`), then at the lowered threshold
`T - 0.1`, caching and returning the first hit.  The returned pair is
(result, new cache state). -/
def find_icon (bot : Bot) (labels : List String) (useCache : Bool)
    (cache : IconCache) (T : ℚ) : Option (ℤ × ℤ) × IconCache :=
  if useCache && cache.isSome then (cache, cache)
  else
    match findPass bot T labels with
    | some c => (some c, set_cache c cache)
    | none =>
      match findPass bot (T - 1/10) labels with
      | some c => (some c, set_cache c cache)
      | none => (none, cache)

/-! ## Window filter (main.py lines 114-129, src/notepad.py lines 64-73) -/

/-- An OS window handle as far as the filters inspect it. -/
structure Window where
  title : String
  visible : Bool
deriving DecidableEq

/-- Python `str.lower`, for the ASCII titles involved. -/
def lowerStr (s : String) : String := ⟨s.data.map Char.toLower⟩

/-- Boolean test that `needle` is a prefix of `hay` (on character lists). -/
def listPrefixB : List Char → List Char → Bool
  | [], _ => true
  | _ :: _, [] => false
  | a :: as, b :: bs => a == b && listPrefixB as bs

/-- Boolean test that `needle` occurs inside `hay`, that is Python's
`needle in hay`. -/
def listInfixB (needle : List Char) : List Char → Bool
  | [] => listPrefixB needle []
  | b :: bs => listPrefixB needle (b :: bs) || listInfixB needle bs

/-- Python `needle in hay` on strings. -/
def strContains (needle hay : String) : Bool := listInfixB needle.data hay.data

/-- Python `s.endswith(suffix)`. -/
def strEndsWith (suffix s : String) : Bool :=
  listPrefixB suffix.data.reverse s.data.reverse

/-- `pygetwindow.getWindowsWithTitle(t)`: all windows whose title contains
`t`, compared case-insensitively (the library uppercases both sides). -/
def getWindowsWithTitle (t : String) (ws : List Window) : List Window :=
  ws.filter (fun w => strContains (lowerStr t) (lowerStr w.title))

/-- `get_notepad_windows` of `main.py` (lines 114-129): keep windows whose
lowered title equals `"notepad"`, ends with `" - notepad"` or contains
`"notepad"`, and which contain none of the impostor substrings
`"cursor"`, `"code"`, `"editor"`. -/
def get_notepad_windows_main (ws : List Window) : List Window :=
  (getWindowsWithTitle "Notepad" ws).filter (fun w =>
    let t := lowerStr w.title
    (t == "notepad" || strEndsWith " - notepad" t || strContains "notepad" t)
      && (!strContains "cursor" t && !strContains "code" t
            && !strContains "editor" t))

/-- `get_notepad_windows` of `src/notepad.py` (lines 64-73): keep windows
whose lowered title equals `"notepad"` or ends with `" - notepad"`;
there is no impostor-substring exclusion in this version. -/
def get_notepad_windows_pkg (ws : List Window) : List Window :=
  (getWindowsWithTitle "Notepad" ws).filter (fun w =>
    let t := lowerStr w.title
    t == "notepad" || strEndsWith " - notepad" t)

/-! ## Launch controller (src/notepad.py lines 100-132) -/

/-- Observable outcome of one `launch_notepad` run: the returned boolean,
the final cache state, how many uncached (`use_cache=False`) calls to
`find_icon` were made, and the coordinates of the successful attempt
(ghost field, `none` on failure). -/
structure LaunchResult where
  success : Bool
  cache : IconCache
  freshCalls : ℕ
  used : IconCache
deriving DecidableEq

/-- `_verify_notepad_launched` (`notepad.py` lines 121-132) with the
window-poll loop abstracted into its outcome `appeared`: when a visible
Notepad window appeared within the timeout, the cache is set to the
coordinates (when they are not `None`) and the call returns `True`. -/
def verify_notepad_launched (appeared : Bool) (coords : IconCache)
    (cache : IconCache) : Bool × IconCache :=
  if appeared then
    (true, match coords with | some c => set_cache c cache | none => cache)
  else (false, cache)

/-- The `for attempt in range(3)` loop of `launch_notepad` (lines
111-116): each iteration is an uncached `find_icon` call followed, when
coordinates were found, by a verification whose outcome is `vout idx`. -/
def freshLaunchLoop (bot : Bot) (labels : List String) (T : ℚ)
    (vout : ℕ → Bool) : ℕ → ℕ → IconCache → LaunchResult
  | 0, _, cache => ⟨false, cache, 0, none⟩
  | fuel + 1, idx, cache =>
    let fr := find_icon bot labels false cache T
    match fr.1 with
    | some coords =>
      let v := verify_notepad_launched (vout idx) (some coords) fr.2
      if v.1 then ⟨true, v.2, 1, some coords⟩
      else
        let r := freshLaunchLoop bot labels T vout fuel (idx + 1) v.2
        ⟨r.success, r.cache, r.freshCalls + 1, r.used⟩
    | none =>
      let r := freshLaunchLoop bot labels T vout fuel (idx + 1) fr.2
      ⟨r.success, r.cache, r.freshCalls + 1, r.used⟩

/-- `launch_notepad` (`notepad.py` lines 100-118): one attempt with
`use_cache=True`; on a found-but-unverified attempt invalidate the cache;
then at most three fresh attempts.  `vout k` is the verification outcome
of the `k`-th verification poll loop (`k = 0` for the cached attempt). -/
def launch_notepad (bot : Bot) (labels : List String) (T : ℚ)
    (vout : ℕ → Bool) (cache0 : IconCache) : LaunchResult :=
  let fr := find_icon bot labels true cache0 T
  match fr.1 with
  | some coords =>
    let v := verify_notepad_launched (vout 0) (some coords) fr.2
    if v.1 then ⟨true, v.2, 0, some coords⟩
    else freshLaunchLoop bot labels T vout 3 1 (invalidate_cache v.2)
  | none => freshLaunchLoop bot labels T vout 3 1 fr.2

/-! ## Content writer (src/notepad.py lines 139-216) -/

/-- Keyboard, clipboard and window actions issued by the content writer. -/
inductive UIAction where
  | hotkey (a b : String)
  | press (k : String)
  | clipboard (s : String)
  | clickCenter
  | closeNotepad
deriving DecidableEq

/-- Environment of one `write_post_to_notepad` run: `savePolls i` is
whether a "Save As" window is present at the `i`-th poll of
`_wait_for_dialog("Save As", 3)`, `pollBudget` is how many polls fit in
the 3-second timeout, and `confirmSaveAs` is whether the
"Confirm Save As" dialog is present after the path is submitted
(that is, whether the destination file already exists). -/
structure WriteEnv where
  savePolls : ℕ → Bool
  pollBudget : ℕ
  confirmSaveAs : Bool

/-- Observable outcome of one `write_post_to_notepad` run. -/
structure WriteResult where
  warned : Bool
  saved : Option (String × String)
  overwriteAccepted : Bool
  closedDocument : Bool
deriving DecidableEq

/-- The timeout (seconds) passed to `_wait_for_dialog("Save As", 3)` in
`_save_file`. -/
def saveAsTimeoutSeconds : ℚ := 3

/-- The appear-direction of `_wait_for_dialog` (`notepad.py` lines 33-58)
with time abstracted: true iff the dialog is present at one of the polls
that fit into the timeout. -/
def wait_for_dialog_appear (polls : ℕ → Bool) (fuel : ℕ) : Bool :=
  (List.range fuel).any polls

/-- A fetched post (`id`, `title`, `body`). -/
structure Post where
  id : ℤ
  title : String
  body : String
deriving DecidableEq

/-- The content string composed by `write_post_to_notepad` (line 199) and
`process_single_post` (line 321). -/
def postContent (p : Post) : String := "Title: " ++ p.title ++ "\n\n" ++ p.body

/-- The output file name composed at `notepad.py` line 202 and
`main.py` line 333. -/
def postFilename (p : Post) : String := "post_" ++ toString p.id ++ ".txt"

/-- The actions that happen before the Save As dialog check: prepare
window (activate and click center), Ctrl+N, prepare again, paste the
content via the clipboard (`_paste_content`), and issue Ctrl+S
(beginning of `_save_file`). -/
def preSaveActions (content : String) : List UIAction :=
  [UIAction.clickCenter, UIAction.hotkey "ctrl" "n", UIAction.clickCenter,
   UIAction.clipboard content, UIAction.hotkey "ctrl" "a",
   UIAction.press "delete", UIAction.hotkey "ctrl" "v",
   UIAction.hotkey "ctrl" "s"]

/-- The actions inside the Save As dialog (`_save_file` lines 167-182):
select all, paste the destination path, Enter, and accept the overwrite
confirmation when the "Confirm Save As" dialog is present. -/
def saveDialogActions (filepath : String) (confirm : Bool) : List UIAction :=
  [UIAction.hotkey "ctrl" "a", UIAction.clipboard filepath,
   UIAction.hotkey "ctrl" "v", UIAction.press "enter"]
    ++ (if confirm then [UIAction.press "y"] else [])

/-- `write_post_to_notepad` (`notepad.py` lines 189-216): compose the
content and the destination path, run the pre-save steps and Ctrl+S, then
wait up to the timeout for the Save As dialog.  If it never appears
within the poll budget, report a warning and return with no further
actions; otherwise drive the dialog, accept an overwrite confirmation
when present, close the document (Ctrl+W) and close Notepad. -/
def write_post_to_notepad (post : Post) (projectPath : String)
    (env : WriteEnv) : WriteResult × List UIAction :=
  let content := postContent post
  let filepath := projectPath ++ "/" ++ postFilename post
  if wait_for_dialog_appear env.savePolls env.pollBudget then
    (⟨false, some (filepath, content), env.confirmSaveAs, true⟩,
      preSaveActions content ++ saveDialogActions filepath env.confirmSaveAs
        ++ [UIAction.clickCenter, UIAction.hotkey "ctrl" "w",
            UIAction.closeNotepad])
  else (⟨true, none, false, false⟩, preSaveActions content)

/-! ## Workflow driver (main.py lines 356-373) -/

/-- The posts actually processed by `main()`: nothing when the template
list is empty (`if not all_templates: return`) or the fetch failed or
returned an empty list (`if not posts: return`), otherwise the slice
`posts[:10]`. -/
def mainDriver (templates : List Template) (fetched : Option (List Post)) :
    List Post :=
  match templates, fetched with
  | [], _ => []
  | _ :: _, none => []
  | _ :: _, some ps => if ps.isEmpty then [] else ps.take 10

/-! ## Concrete instances used by witnesses and counterexamples -/

/-- Template scoring 0.85 at location (10, 10), 20 by 20 pixels. -/
def tA : Template := ⟨"a", 20, 20, 17/20, (10, 10)⟩

/-- Template scoring 0.92 at location (50, 60), 20 by 20 pixels. -/
def tB : Template := ⟨"b", 20, 20, 23/25, (50, 60)⟩

/-- Template larger than a 1080 by 1920 capture in the row axis. -/
def tBig : Template := ⟨"big", 2000, 5, 1, (0, 0)⟩

/-- Backend on which labels "a" and "b" both clear the 0.8 threshold,
with "b" scoring strictly higher. -/
def botTwo : Bot :=
  ⟨fun l => if l = "a" then 17/20 else 23/25,
   fun l => if l = "a" then some (10, 10) else some (50, 60)⟩

/-- Backend whose only confidence is 0.75: below the primary threshold
0.8 but above the lowered threshold 0.7. -/
def botLow : Bot := ⟨fun _ => 3/4, fun _ => some (1, 2)⟩

/-- Backend on which every confidence is 0 and coordinate lookups fail. -/
def botZero : Bot := ⟨fun _ => 0, fun _ => none⟩

/-- A window of an unrelated application whose title contains "Notepad"
but neither equals "notepad" nor ends with " - notepad". -/
def wNotepadPP : Window := ⟨"Notepad++", true⟩

/-- A window whose title ends with " - Notepad" but contains the impostor
substring "code". -/
def wCodeNotepad : Window := ⟨"Code - Notepad", true⟩

/-- Writer environment in which the Save As dialog never appears. -/
def envNoDialog : WriteEnv := ⟨fun _ => false, 15, false⟩

/-- Writer environment in which the Save As dialog is present at the
first poll and the destination file already exists. -/
def envDialog : WriteEnv := ⟨fun _ => true, 1, true⟩

/-- The post of the end-to-end example in the spec: id 42, title "T",
body "B". -/
def post42 : Post := ⟨42, "T", "B"⟩

/-! ## Helper lemmas about the main.py matcher loop -/

lemma eligible_iff_not_skip (H W : ℕ) (t : Template) :
    eligible H W t ↔ ¬(H < t.rows ∨ W < t.cols) := by
  simp [eligible, not_or, not_lt]

lemma matchStep_eq (H W : ℕ) (s : MatchState) (t : Template) :
    matchStep H W s t = s ∨
      (eligible H W t ∧ s.score < t.conf ∧
        matchStep H W s t = ⟨t.conf, some t.loc, (t.cols, t.rows), t.name⟩) := by
  unfold matchStep
  by_cases h : H < t.rows ∨ W < t.cols
  · left; rw [if_pos h]
  · rw [if_neg h]
    by_cases h2 : s.score < t.conf
    · right
      exact ⟨(eligible_iff_not_skip H W t).mpr h, h2, if_pos h2⟩
    · left; rw [if_neg h2]

lemma matchStep_score_le (H W : ℕ) (s : MatchState) (t : Template) :
    s.score ≤ (matchStep H W s t).score := by
  rcases matchStep_eq H W s t with h | ⟨_, hlt, h⟩
  · rw [h]
  · rw [h]; exact le_of_lt hlt

lemma foldl_score_le (H W : ℕ) (ts : List Template) :
    ∀ s : MatchState, s.score ≤ (ts.foldl (matchStep H W) s).score := by
  induction ts with
  | nil => intro s; exact le_refl _
  | cons a as ih =>
    intro s
    exact le_trans (matchStep_score_le H W s a) (ih (matchStep H W s a))

lemma foldl_conf_le (H W : ℕ) (ts : List Template) :
    ∀ s : MatchState, ∀ t ∈ ts, eligible H W t →
      t.conf ≤ (ts.foldl (matchStep H W) s).score := by
  induction ts with
  | nil => intro s t ht; exact absurd ht (List.not_mem_nil t)
  | cons a as ih =>
    intro s t ht he
    rcases List.mem_cons.mp ht with rfl | hmem
    · have h1 : t.conf ≤ (matchStep H W s t).score := by
        unfold matchStep
        rw [if_neg ((eligible_iff_not_skip H W t).mp he)]
        by_cases h2 : s.score < t.conf
        · rw [if_pos h2]
        · rw [if_neg h2]; exact not_lt.mp h2
      exact le_trans h1 (foldl_score_le H W as (matchStep H W s t))
    · exact ih (matchStep H W s a) t hmem he

lemma foldl_match_cases (H W : ℕ) (ts : List Template) :
    ∀ s : MatchState, ts.foldl (matchStep H W) s = s ∨
      ∃ t ∈ ts, eligible H W t ∧
        ts.foldl (matchStep H W) s =
          ⟨t.conf, some t.loc, (t.cols, t.rows), t.name⟩ := by
  induction ts with
  | nil => intro s; left; rfl
  | cons a as ih =>
    intro s
    rw [List.foldl_cons]
    rcases ih (matchStep H W s a) with h | ⟨t, hmem, he, h⟩
    · rcases matchStep_eq H W s a with h2 | ⟨he2, _, h2⟩
      · left; rw [h, h2]
      · right; exact ⟨a, List.mem_cons_self a as, he2, by rw [h, h2]⟩
    · right; exact ⟨t, List.mem_cons_of_mem a hmem, he, h⟩

lemma scan_cases (ts : List Template) (H W : ℕ) :
    scanTemplates ts H W = initMatch ∨
      ∃ t ∈ ts, eligible H W t ∧
        scanTemplates ts H W =
          ⟨t.conf, some t.loc, (t.cols, t.rows), t.name⟩ :=
  foldl_match_cases H W ts initMatch

lemma scan_conf_le (ts : List Template) (H W : ℕ) :
    ∀ t ∈ ts, eligible H W t → t.conf ≤ (scanTemplates ts H W).score :=
  foldl_conf_le H W ts initMatch

lemma foldl_score_eq_bestConf (H W : ℕ) (ts : List Template) :
    ∀ s : MatchState, (ts.foldl (matchStep H W) s).score =
      ts.foldl (fun acc t => if eligible H W t then max acc t.conf else acc)
        s.score := by
  induction ts with
  | nil => intro s; rfl
  | cons a as ih =>
    intro s
    rw [List.foldl_cons, List.foldl_cons, ih (matchStep H W s a)]
    congr 1
    unfold matchStep
    by_cases h : H < a.rows ∨ W < a.cols
    · rw [if_pos h, if_neg (fun he => ((eligible_iff_not_skip H W a).mp he) h)]
    · rw [if_neg h, if_pos ((eligible_iff_not_skip H W a).mpr h)]
      by_cases h2 : s.score < a.conf
      · rw [if_pos h2, max_eq_right (le_of_lt h2)]
      · rw [if_neg h2, max_eq_left (not_lt.mp h2)]

lemma scan_score_eq_bestConf (ts : List Template) (H W : ℕ) :
    (scanTemplates ts H W).score = bestConf ts H W :=
  foldl_score_eq_bestConf H W ts initMatch

lemma scan_loc_eq_none (ts : List Template) (H W : ℕ)
    (h : (scanTemplates ts H W).loc = none) :
    scanTemplates ts H W = initMatch := by
  rcases scan_cases ts H W with h2 | ⟨t, _, _, h2⟩
  · exact h2
  · rw [h2] at h; exact absurd h (by simp)

lemma scan_loc_isSome (ts : List Template) (H W : ℕ) (T : ℚ) (hT : 0 < T)
    (hs : T ≤ (scanTemplates ts H W).score) :
    ∃ l, (scanTemplates ts H W).loc = some l := by
  cases h : (scanTemplates ts H W).loc with
  | some l => exact ⟨l, rfl⟩
  | none =>
    have h2 := scan_loc_eq_none ts H W h
    rw [h2] at hs
    exact absurd (lt_of_lt_of_le hT hs) (lt_irrefl 0)

lemma find_ne_error (ts : List Template) (H W : ℕ) (T : ℚ) (hT : 0 < T) :
    find_icon_with_multiple_templates ts H W T ≠ Except.error () := by
  unfold find_icon_with_multiple_templates
  by_cases hs : T ≤ (scanTemplates ts H W).score
  · obtain ⟨l, hl⟩ := scan_loc_isSome ts H W T hT hs
    rw [if_pos hs, hl]
    exact fun h => by cases h
  · rw [if_neg hs]
    exact fun h => by cases h

/-! ## Helper lemma about the package icon finder -/

lemma findPass_eq_none_iff (bot : Bot) (thr : ℚ) (labels : List String) :
    findPass bot thr labels = none ↔
      ∀ l ∈ labels, bot.conf l < thr ∨ bot.coords l = none := by
  induction labels with
  | nil => simp [findPass]
  | cons a as ih =>
    rw [findPass]
    by_cases h : thr ≤ bot.conf a
    · rw [if_pos h]
      cases hc : bot.coords a with
      | some c =>
        simp [List.forall_mem_cons, hc, not_lt.mpr h]
      | none =>
        simp [List.forall_mem_cons, hc, ih]
    · rw [if_neg h, ih]
      simp [List.forall_mem_cons, lt_of_not_le h]

/-! ## Claim C1 -/

/-- Claim C1, counterexample.  As stated, the claim is false for the
`find_icon` of `src/icon_detector.py`: with labels `["a", "b"]` where
"a" scores 0.85 and "b" scores 0.92 (both clearing the 0.8 threshold),
a single uncached call returns the location (10, 10) of the first
template "a" that clears the threshold, not the location (50, 60) of the
best-scoring template "b". -/
theorem claimC1_first_match_cex :
    (find_icon botTwo ["a", "b"] false none (4/5)).1 = some (10, 10) ∧
      botTwo.conf "a" < botTwo.conf "b" ∧
      (4/5 : ℚ) ≤ botTwo.conf "a" ∧
      botTwo.coords "b" = some (50, 60) := by
  refine ⟨?_, ?_, ?_, rfl⟩
  · norm_num [find_icon, findPass, botTwo, set_cache]
  · show (17/20 : ℚ) < 23/25
    norm_num
  · show (4/5 : ℚ) ≤ 17/20
    norm_num

/-- Claim C1, amended: the maximum-confidence selection holds of
`find_icon_with_multiple_templates` in `main.py` (which tracks the global
best across the whole template set and returns its center), while the
`find_icon` of `src/icon_detector.py` instead returns the first label that
clears a threshold in list order.  Whenever the `main.py` matcher returns
a location, it is the center of an eligible template whose confidence is
maximal among all eligible templates. -/
theorem claimC1_best_template_selected (ts : List Template) (H W : ℕ)
    (T : ℚ) (p : ℕ × ℕ)
    (hp : find_icon_with_multiple_templates ts H W T = Except.ok (some p)) :
    ∃ t ∈ ts, eligible H W t ∧
      (∀ u ∈ ts, eligible H W u → u.conf ≤ t.conf) ∧
      p = (t.loc.1 + t.cols / 2, t.loc.2 + t.rows / 2) := by
  unfold find_icon_with_multiple_templates at hp
  by_cases hs : T ≤ (scanTemplates ts H W).score
  · rw [if_pos hs] at hp
    cases hloc : (scanTemplates ts H W).loc with
    | none => rw [hloc] at hp; exact absurd hp (by simp)
    | some l =>
      rw [hloc] at hp
      have hp2 : p = (l.1 + (scanTemplates ts H W).dims.1 / 2,
          l.2 + (scanTemplates ts H W).dims.2 / 2) := by
        simpa using hp.symm
      rcases scan_cases ts H W with hcase | ⟨t, hmem, he, hcase⟩
      · rw [hcase] at hloc
        exact absurd hloc (by simp [initMatch])
      · refine ⟨t, hmem, he, ?_, ?_⟩
        · intro u hu heu
          have h3 := scan_conf_le ts H W u hu heu
          rw [hcase] at h3
          exact h3
        · rw [hcase] at hloc hp2
          have hl : l = t.loc := by simpa using hloc.symm
          rw [hp2, hl]
  · rw [if_neg hs] at hp
    exact absurd hp (by simp)

/-- Claim C1, witness: on the template set `[tA, tB]` (confidences 0.85
and 0.92, threshold 0.8) the matcher returns the center (60, 70) of the
best-scoring template `tB`, and the amended theorem exhibits `tB` as a
maximal eligible template. -/
theorem claimC1_witness :
    ∃ t ∈ [tA, tB], eligible 1080 1920 t ∧
      (∀ u ∈ [tA, tB], eligible 1080 1920 u → u.conf ≤ t.conf) ∧
      ((60 : ℕ), (70 : ℕ)) = (t.loc.1 + t.cols / 2, t.loc.2 + t.rows / 2) :=
  claimC1_best_template_selected [tA, tB] 1080 1920 (4/5) (60, 70)
    (by norm_num [find_icon_with_multiple_templates, scanTemplates,
      matchStep, initMatch, tA, tB])

/-! ## Claim C5 -/

/-- Claim C5, counterexample.  As stated ("find_icon accepts a match if
and only if the best confidence across all evaluated templates is at
least the threshold"), the claim is false for the `find_icon` of
`src/icon_detector.py`: when the cache is populated and `use_cache` is
set, the call returns the cached coordinates without evaluating any
template, here with every confidence equal to 0 < 0.8. -/
theorem claimC5_cache_accept_cex :
    (find_icon botZero ["icon"] true (some (7, 8)) (4/5)).1 = some (7, 8) ∧
      botZero.conf "icon" < 4/5 := by
  refine ⟨rfl, ?_⟩
  show (0 : ℚ) < 4/5
  norm_num

/-- Claim C5, amended: the accept-iff-threshold property holds of
`find_icon_with_multiple_templates` in `main.py`.  For a positive
threshold `T`: the matcher returns a location iff the best confidence
across the evaluated (non-oversized) templates is at least `T`; a
returned location is the center `(loc_x + w / 2, loc_y + h / 2)` of a
best-scoring eligible template, with truncating natural division; and the
call never errors — in particular, when no match reaches the threshold it
returns `none` ("not found").  The `find_icon` of `src/icon_detector.py`
instead returns the cached coordinates without evaluating any template
when the cache is set. -/
theorem claimC5_accept_iff_threshold (ts : List Template) (H W : ℕ)
    (T : ℚ) (hT : 0 < T) :
    ((∃ p, find_icon_with_multiple_templates ts H W T = Except.ok (some p))
        ↔ T ≤ bestConf ts H W) ∧
      (∀ p, find_icon_with_multiple_templates ts H W T = Except.ok (some p) →
        ∃ t ∈ ts, eligible H W t ∧ t.conf = bestConf ts H W ∧
          p = (t.loc.1 + t.cols / 2, t.loc.2 + t.rows / 2)) ∧
      find_icon_with_multiple_templates ts H W T ≠ Except.error () := by
  have hbest := scan_score_eq_bestConf ts H W
  refine ⟨?_, ?_, find_ne_error ts H W T hT⟩
  · constructor
    · intro ⟨p, hp⟩
      rw [← hbest]
      by_contra hs
      unfold find_icon_with_multiple_templates at hp
      rw [if_neg hs] at hp
      exact absurd hp (by simp)
    · intro hb
      rw [← hbest] at hb
      obtain ⟨l, hl⟩ := scan_loc_isSome ts H W T hT hb
      refine ⟨(l.1 + (scanTemplates ts H W).dims.1 / 2,
        l.2 + (scanTemplates ts H W).dims.2 / 2), ?_⟩
      unfold find_icon_with_multiple_templates
      rw [if_pos hb, hl]
  · intro p hp
    by_cases hs : T ≤ (scanTemplates ts H W).score
    · unfold find_icon_with_multiple_templates at hp
      rw [if_pos hs] at hp
      cases hloc : (scanTemplates ts H W).loc with
      | none => rw [hloc] at hp; exact absurd hp (by simp)
      | some l =>
        rw [hloc] at hp
        have hp2 : p = (l.1 + (scanTemplates ts H W).dims.1 / 2,
            l.2 + (scanTemplates ts H W).dims.2 / 2) := by
          simpa using hp.symm
        rcases scan_cases ts H W with hcase | ⟨t, hmem, he, hcase⟩
        · rw [hcase] at hloc
          exact absurd hloc (by simp [initMatch])
        · refine ⟨t, hmem, he, ?_, ?_⟩
          · rw [← hbest, hcase]
          · rw [hcase] at hloc hp2
            have hl : l = t.loc := by simpa using hloc.symm
            rw [hp2, hl]
    · unfold find_icon_with_multiple_templates at hp
      rw [if_neg hs] at hp
      exact absurd hp (by simp)

/-- Claim C5, witness: instantiation at the template set `[tA, tB]` on a
1080 by 1920 capture with threshold 0.8. -/
theorem claimC5_witness :
    ((∃ p, find_icon_with_multiple_templates [tA, tB] 1080 1920 (4/5) =
          Except.ok (some p)) ↔ (4/5 : ℚ) ≤ bestConf [tA, tB] 1080 1920) ∧
      (∀ p, find_icon_with_multiple_templates [tA, tB] 1080 1920 (4/5) =
          Except.ok (some p) →
        ∃ t ∈ [tA, tB], eligible 1080 1920 t ∧
          t.conf = bestConf [tA, tB] 1080 1920 ∧
          p = (t.loc.1 + t.cols / 2, t.loc.2 + t.rows / 2)) ∧
      find_icon_with_multiple_templates [tA, tB] 1080 1920 (4/5) ≠
        Except.error () :=
  claimC5_accept_iff_threshold [tA, tB] 1080 1920 (4/5) (by norm_num)

/-! ## Claim C8 -/

/-- Claim C8: a template whose dimensions exceed the capture in either
axis is skipped by `find_icon_with_multiple_templates`: the result is the
same as on the template list without it (so it never becomes the returned
match and the remaining templates are still evaluated), and for a
positive threshold the call never errors. -/
theorem claimC8_oversized_skipped (ts1 ts2 : List Template) (t : Template)
    (H W : ℕ) (T : ℚ) (ht : H < t.rows ∨ W < t.cols) :
    find_icon_with_multiple_templates (ts1 ++ t :: ts2) H W T =
        find_icon_with_multiple_templates (ts1 ++ ts2) H W T ∧
      (0 < T →
        find_icon_with_multiple_templates (ts1 ++ t :: ts2) H W T ≠
          Except.error ()) := by
  have hscan : scanTemplates (ts1 ++ t :: ts2) H W =
      scanTemplates (ts1 ++ ts2) H W := by
    unfold scanTemplates
    rw [List.foldl_append, List.foldl_append, List.foldl_cons]
    congr 1
    unfold matchStep
    rw [if_pos ht]
  constructor
  · unfold find_icon_with_multiple_templates
    rw [hscan]
  · intro hT
    exact find_ne_error (ts1 ++ t :: ts2) H W T hT

/-- Claim C8, witness: inserting the oversized template `tBig` (2000 rows
on a 1080-row capture) between `tA` and `tB` does not change the result,
and the call does not error. -/
theorem claimC8_witness :
    find_icon_with_multiple_templates ([tA] ++ tBig :: [tB]) 1080 1920
          (4/5) =
        find_icon_with_multiple_templates ([tA] ++ [tB]) 1080 1920 (4/5) ∧
      ((0 : ℚ) < 4/5 →
        find_icon_with_multiple_templates ([tA] ++ tBig :: [tB]) 1080 1920
            (4/5) ≠ Except.error ()) :=
  claimC8_oversized_skipped [tA] [tB] tBig 1080 1920 (4/5)
    (Or.inl (by norm_num [tBig]))

/-! ## Claim C7 -/

/-- Claim C7: the coordinate cache is a single slot with the algebra the
spec states: after `set c` followed by `invalidate`, `get` returns
`none` ("not found"); after `invalidate` followed by a fresh `set c2`,
`get` returns `some c2`; and each `set` replaces any previous value. -/
theorem claimC7_cache_slot :
    ∀ (c c2 prev : ℤ × ℤ) (s s2 s3 : IconCache),
      get_cache (invalidate_cache (set_cache c s)) = none ∧
        get_cache (set_cache c2 (invalidate_cache s2)) = some c2 ∧
        set_cache c (set_cache prev s3) = set_cache c s3 :=
  fun _ _ _ _ _ _ => ⟨rfl, rfl, rfl⟩

/-! ## Claim C10 -/

/-- Claim C10: `main()` iterates over `posts[:10]`, so for every fetched
post list at most the first 10 posts are processed (at most 10 in number,
a prefix of the fetched list), and — when templates were loaded — the
processed list is exactly `posts.take 10`, so posts beyond the tenth are
never processed. -/
theorem claimC10_first_ten_posts (templates : List Template)
    (ps : List Post) (h : templates ≠ []) :
    (mainDriver templates (some ps)).length ≤ 10 ∧
      (∃ rest, mainDriver templates (some ps) ++ rest = ps) ∧
      mainDriver templates (some ps) = ps.take 10 := by
  have heq : mainDriver templates (some ps) = ps.take 10 := by
    cases templates with
    | nil => exact absurd rfl h
    | cons a as =>
      by_cases hps : ps.isEmpty
      · rw [List.isEmpty_iff] at hps
        subst hps
        simp [mainDriver]
      · simp [mainDriver, hps]
  refine ⟨?_, ?_, heq⟩
  · rw [heq, List.length_take]
    exact min_le_left _ _
  · exact ⟨ps.drop 10, by rw [heq]; exact List.take_append_drop 10 ps⟩

/-! ## Claim C2 -/

/-- Claim C2, counterexample.  As stated ("the secondary lowered
threshold is applied only as a fallback pass in the retry policy across
calls, never inside a single find_icon call"), the claim is false for
`src/icon_detector.py`: a single uncached `find_icon` call with primary
threshold 0.8 accepts the label "icon" at confidence 0.75, because the
call itself runs a second pass at the lowered threshold 0.7. -/
theorem claimC2_secondary_threshold_cex :
    (find_icon botLow ["icon"] false none (4/5)).1 = some (1, 2) ∧
      botLow.conf "icon" < 4/5 ∧
      (4/5 : ℚ) - 1/10 ≤ botLow.conf "icon" := by
  refine ⟨?_, ?_, ?_⟩
  · norm_num [find_icon, findPass, botLow, set_cache]
  · show (3/4 : ℚ) < 4/5
    norm_num
  · show (4/5 : ℚ) - 1/10 ≤ 3/4
    norm_num

/-- Claim C2, amended: inside a single uncached `find_icon` call the
lowered threshold `T - 0.1` is the effective acceptance bar — the call
returns "not found" precisely when every label either has confidence
below `T - 0.1` or a failing coordinate lookup; the two thresholds
`[T, T - 0.1]` are both tried within one call (the first pass merely
gives priority to labels clearing the primary threshold), not across
calls of a retry policy. -/
theorem claimC2_lowered_threshold_in_call (bot : Bot) (labels : List String)
    (cache : IconCache) (T : ℚ) :
    (find_icon bot labels false cache T).1 = none ↔
      ∀ l ∈ labels, bot.conf l < T - 1/10 ∨ bot.coords l = none := by
  have hsub : T - 1/10 < T := by norm_num
  unfold find_icon
  rw [if_neg (by simp)]
  cases h1 : findPass bot T labels with
  | some c =>
    constructor
    · intro h2
      exact absurd h2 (by simp)
    · intro hall
      have h3 : findPass bot T labels = none := by
        rw [findPass_eq_none_iff]
        intro l hl
        rcases hall l hl with h4 | h4
        · exact Or.inl (lt_trans h4 hsub)
        · exact Or.inr h4
      rw [h1] at h3
      exact absurd h3 (by simp)
  | none =>
    cases h2 : findPass bot (T - 1/10) labels with
    | some c =>
      constructor
      · intro h3
        exact absurd h3 (by simp)
      · intro hall
        have h3 : findPass bot (T - 1/10) labels = none :=
          (findPass_eq_none_iff bot (T - 1/10) labels).mpr hall
        rw [h2] at h3
        exact absurd h3 (by simp)
    | none =>
      constructor
      · intro _
        exact (findPass_eq_none_iff bot (T - 1/10) labels).mp h2
      · intro _
        rfl

/-! ## Claim C3 -/

/-- Claim C3, counterexample.  As stated, the claim is false for both
filters: `main.py` includes the window "Notepad++" although its title
neither equals "notepad" nor ends with " - notepad" (the filter has a
catch-all `"notepad" in title` disjunct), and `src/notepad.py` includes
"Code - Notepad" although its title contains the impostor substring
"code" (that filter has no impostor exclusion at all). -/
theorem claimC3_filter_cex :
    get_notepad_windows_main [wNotepadPP] = [wNotepadPP] ∧
      (lowerStr wNotepadPP.title == "notepad") = false ∧
      strEndsWith " - notepad" (lowerStr wNotepadPP.title) = false ∧
      get_notepad_windows_pkg [wCodeNotepad] = [wCodeNotepad] ∧
      strContains "code" (lowerStr wCodeNotepad.title) = true := by
  decide

/-- Claim C3, amended: among windows whose title contains "Notepad"
case-insensitively (the pygetwindow pre-filter), the `main.py` filter
returns exactly the windows whose lowered title contains "notepad" and
contains none of the impostor substrings "cursor", "code", "editor"
(not only equality/suffix matches); the `src/notepad.py` filter returns
exactly the equality/suffix matches, with no impostor exclusion.  The
spec's examples do hold of both filters: "Notepad++ Editor" is excluded
and "Untitled - Notepad" is included. -/
theorem claimC3_filter_characterization (ws : List Window) (w : Window) :
    (w ∈ get_notepad_windows_main ws ↔ w ∈ ws ∧
        strContains "notepad" (lowerStr w.title) = true ∧
        strContains "cursor" (lowerStr w.title) = false ∧
        strContains "code" (lowerStr w.title) = false ∧
        strContains "editor" (lowerStr w.title) = false) ∧
      (w ∈ get_notepad_windows_pkg ws ↔ w ∈ ws ∧
        strContains "notepad" (lowerStr w.title) = true ∧
        ((lowerStr w.title == "notepad") = true ∨
          strEndsWith " - notepad" (lowerStr w.title) = true)) ∧
      get_notepad_windows_main [⟨"Notepad++ Editor", true⟩] = [] ∧
      get_notepad_windows_pkg [⟨"Notepad++ Editor", true⟩] = [] ∧
      get_notepad_windows_main [⟨"Untitled - Notepad", true⟩] =
        [⟨"Untitled - Notepad", true⟩] ∧
      get_notepad_windows_pkg [⟨"Untitled - Notepad", true⟩] =
        [⟨"Untitled - Notepad", true⟩] := by
  have hN : lowerStr "Notepad" = "notepad" := by decide
  refine ⟨?_, ?_, by decide, by decide, by decide, by decide⟩
  · unfold get_notepad_windows_main getWindowsWithTitle
    rw [hN]
    simp only [List.mem_filter, Bool.and_eq_true, Bool.or_eq_true,
      Bool.not_eq_true']
    tauto
  · unfold get_notepad_windows_pkg getWindowsWithTitle
    rw [hN]
    simp only [List.mem_filter, Bool.or_eq_true]
    tauto

/-! ## Helper lemmas about the launch controller -/

lemma freshLoop_calls_le (bot : Bot) (labels : List String) (T : ℚ)
    (vout : ℕ → Bool) :
    ∀ fuel idx cache,
      (freshLaunchLoop bot labels T vout fuel idx cache).freshCalls ≤
        fuel := by
  intro fuel
  induction fuel with
  | zero => intro idx cache; exact Nat.le_refl 0
  | succ n ih =>
    intro idx cache
    rw [freshLaunchLoop]
    cases hfr : (find_icon bot labels false cache T).1 with
    | some coords =>
      cases hvi : vout idx with
      | true =>
        simp only [verify_notepad_launched, hvi, if_pos]
        exact Nat.succ_le_succ (Nat.zero_le n)
      | false =>
        simp only [verify_notepad_launched, hvi, if_neg]
        exact Nat.succ_le_succ (ih (idx + 1) _)
    | none =>
      exact Nat.succ_le_succ (ih (idx + 1) _)

lemma freshLoop_success_cache (bot : Bot) (labels : List String) (T : ℚ)
    (vout : ℕ → Bool) :
    ∀ fuel idx cache,
      (freshLaunchLoop bot labels T vout fuel idx cache).success = true →
        ∃ p, (freshLaunchLoop bot labels T vout fuel idx cache).used =
            some p ∧
          (freshLaunchLoop bot labels T vout fuel idx cache).cache =
            some p := by
  intro fuel
  induction fuel with
  | zero =>
    intro idx cache h
    exact absurd h (by simp [freshLaunchLoop])
  | succ n ih =>
    intro idx cache
    rw [freshLaunchLoop]
    cases hfr : (find_icon bot labels false cache T).1 with
    | some coords =>
      cases hvi : vout idx with
      | true =>
        intro _
        exact ⟨coords, rfl, rfl⟩
      | false =>
        simp only [verify_notepad_launched, hvi, if_neg]
        exact ih (idx + 1) _
    | none =>
      exact ih (idx + 1) _

lemma freshLoop_allfail (bot : Bot) (labels : List String) (T : ℚ)
    (vout : ℕ → Bool) (hv : ∀ k, vout k = false) :
    ∀ fuel idx cache,
      (freshLaunchLoop bot labels T vout fuel idx cache).success = false := by
  intro fuel
  induction fuel with
  | zero => intro idx cache; rfl
  | succ n ih =>
    intro idx cache
    rw [freshLaunchLoop]
    cases hfr : (find_icon bot labels false cache T).1 with
    | some coords =>
      simp only [verify_notepad_launched, hv idx, if_neg]
      exact ih (idx + 1) _
    | none =>
      exact ih (idx + 1) _

/-! ## Claim C4 -/

/-- Claim C4: `launch_notepad` first tries the cached coordinate; when
that cached attempt is not verified (no visible matching window within
the verification window), it invalidates the cache and runs the fresh
loop from an empty cache; it makes at most 3 uncached `find_icon`
attempts; on any success the cache holds exactly the coordinates used;
and when every verification fails it returns the failure boolean `false`
(the function is total — no exception). -/
theorem claimC4_launch_retry_policy (bot : Bot) (labels : List String)
    (T : ℚ) (vout : ℕ → Bool) (c : ℤ × ℤ) (cache0 : IconCache)
    (h0 : cache0 = some c) (hv0 : vout 0 = false) :
    launch_notepad bot labels T vout cache0 =
        freshLaunchLoop bot labels T vout 3 1 none ∧
      (launch_notepad bot labels T vout cache0).freshCalls ≤ 3 ∧
      ((launch_notepad bot labels T vout cache0).success = true →
        ∃ p, (launch_notepad bot labels T vout cache0).used = some p ∧
          (launch_notepad bot labels T vout cache0).cache = some p) ∧
      ((∀ k, vout k = false) →
        (launch_notepad bot labels T vout cache0).success = false) := by
  subst h0
  have hfi : find_icon bot labels true (some c) T = (some c, some c) := by
    unfold find_icon
    rw [if_pos (by simp)]
  have h1 : launch_notepad bot labels T vout (some c) =
      freshLaunchLoop bot labels T vout 3 1 none := by
    unfold launch_notepad
    rw [hfi]
    simp [verify_notepad_launched, hv0, invalidate_cache]
  refine ⟨h1, ?_, ?_, ?_⟩
  · rw [h1]
    exact freshLoop_calls_le bot labels T vout 3 1 none
  · rw [h1]
    exact freshLoop_success_cache bot labels T vout 3 1 none
  · intro hall
    rw [h1]
    exact freshLoop_allfail bot labels T vout hall 3 1 none

/-- Claim C4, witness: with a populated cache (3, 4), a backend that
never finds anything and verifications that always fail, the launch
falls back to the fresh loop from an empty cache, makes at most three
fresh attempts and returns failure. -/
theorem claimC4_witness :
    launch_notepad botZero ["ic"] (4/5) (fun _ => false) (some (3, 4)) =
        freshLaunchLoop botZero ["ic"] (4/5) (fun _ => false) 3 1 none ∧
      (launch_notepad botZero ["ic"] (4/5) (fun _ => false)
          (some (3, 4))).freshCalls ≤ 3 ∧
      ((launch_notepad botZero ["ic"] (4/5) (fun _ => false)
            (some (3, 4))).success = true →
        ∃ p, (launch_notepad botZero ["ic"] (4/5) (fun _ => false)
              (some (3, 4))).used = some p ∧
          (launch_notepad botZero ["ic"] (4/5) (fun _ => false)
              (some (3, 4))).cache = some p) ∧
      ((∀ k : ℕ, (fun _ : ℕ => false) k = false) →
        (launch_notepad botZero ["ic"] (4/5) (fun _ => false)
            (some (3, 4))).success = false) :=
  claimC4_launch_retry_policy botZero ["ic"] (4/5) (fun _ => false) (3, 4)
    (some (3, 4)) rfl rfl

/-! ## Helper lemma about the dialog poll -/

lemma wait_appear_false (polls : ℕ → Bool) (fuel : ℕ)
    (h : ∀ i, polls i = false) :
    wait_for_dialog_appear polls fuel = false := by
  unfold wait_for_dialog_appear
  rw [List.any_eq_false]
  intro x _
  simp [h x]

/-! ## Claim C6 -/

/-- Claim C6: in the content writer (`write_post_to_notepad` with
`_save_file`), when the Save As dialog never appears within the bounded
poll after Ctrl+S, the write is aborted with the reported warning: the
result is the warned state with nothing saved, the document is not
closed, no action beyond the pre-save sequence is issued, and no
exception is raised (the function is total and returns). -/
theorem claimC6_save_dialog_abort (post : Post) (projectPath : String)
    (env : WriteEnv) (h : ∀ i, env.savePolls i = false) :
    (write_post_to_notepad post projectPath env).1 =
        ⟨true, none, false, false⟩ ∧
      (write_post_to_notepad post projectPath env).2 =
        preSaveActions (postContent post) := by
  unfold write_post_to_notepad
  rw [wait_appear_false env.savePolls env.pollBudget h]
  exact ⟨rfl, rfl⟩

/-- Claim C6, witness: the post of the spec example with an environment
in which the dialog never appears. -/
theorem claimC6_witness :
    (write_post_to_notepad post42 "C:/out" envNoDialog).1 =
        ⟨true, none, false, false⟩ ∧
      (write_post_to_notepad post42 "C:/out" envNoDialog).2 =
        preSaveActions (postContent post42) :=
  claimC6_save_dialog_abort post42 "C:/out" envNoDialog (fun _ => rfl)

/-! ## Claim C9 -/

/-- Claim C9: when the save dialog appears, the write flow saves exactly
the content string `"Title: " ++ title ++ "\n\n" ++ body` under the path
ending in the file name `"post_" ++ id ++ ".txt"` inside the project
directory, it does not warn, and when the destination file already
exists (the "Confirm Save As" dialog is present) the overwrite is
accepted by pressing "y". -/
theorem claimC9_content_and_filename (post : Post) (projectPath : String)
    (env : WriteEnv)
    (h : wait_for_dialog_appear env.savePolls env.pollBudget = true) :
    (write_post_to_notepad post projectPath env).1.saved =
        some (projectPath ++ "/" ++ ("post_" ++ toString post.id ++ ".txt"),
          "Title: " ++ post.title ++ "\n\n" ++ post.body) ∧
      (write_post_to_notepad post projectPath env).1.warned = false ∧
      (write_post_to_notepad post projectPath env).1.overwriteAccepted =
        env.confirmSaveAs ∧
      (env.confirmSaveAs = true →
        UIAction.press "y" ∈ (write_post_to_notepad post projectPath env).2) := by
  unfold write_post_to_notepad
  rw [h]
  refine ⟨rfl, rfl, rfl, ?_⟩
  intro hc
  simp [saveDialogActions, hc]

/-- Claim C9, witness: id 42, title "T", body "B" yield the file
`post_42.txt` containing `Title: T\n\nB`, with the overwrite
confirmation accepted since the file exists in this environment. -/
theorem claimC9_witness :
    (write_post_to_notepad post42 "C:/out" envDialog).1.saved =
        some ("C:/out/post_42.txt", "Title: T\n\nB") ∧
      (write_post_to_notepad post42 "C:/out" envDialog).1.warned = false ∧
      (write_post_to_notepad post42 "C:/out" envDialog).1.overwriteAccepted =
        envDialog.confirmSaveAs ∧
      (envDialog.confirmSaveAs = true →
        UIAction.press "y" ∈ (write_post_to_notepad post42 "C:/out" envDialog).2) :=
  claimC9_content_and_filename post42 "C:/out" envDialog rfl

/-- Claim C10, witness: with one loaded template and eleven fetched
posts, exactly the first ten are processed. -/
theorem claimC10_witness :
    (mainDriver [tA] (some (List.range 11 |>.map
        (fun i => ⟨(i : ℤ), "t", "b"⟩)))).length ≤ 10 ∧
      (∃ rest, mainDriver [tA] (some (List.range 11 |>.map
          (fun i => ⟨(i : ℤ), "t", "b"⟩))) ++ rest =
        (List.range 11 |>.map (fun i => ⟨(i : ℤ), "t", "b"⟩))) ∧
      mainDriver [tA] (some (List.range 11 |>.map
          (fun i => ⟨(i : ℤ), "t", "b"⟩))) =
        (List.range 11 |>.map (fun i => ⟨(i : ℤ), "t", "b"⟩)).take 10 :=
  claimC10_first_ten_posts [tA] _ (by simp)

end NotepadBot
